import Mathlib

set_option linter.unusedVariables false

/-!
Shallow embedding of the STM32 Synth driver core (`src/synth.c`, `src/synth.h`).

The driver is a pair of process-wide globals: a table of optional low-level
callbacks (`SYNTH_IO_t SynthIO`) and a runtime context (`SYNTH_Ctx_t SynthCtx`).
Every public operation is a synchronous function that reads or writes these
globals and possibly invokes one of the registered callbacks.

Modelling choices:
- The two globals become one explicit state record `SynthState`, threaded
  through every operation.
- `void *pObj` (ignored by every operation) is modelled as an opaque
  `Option Nat` (`none` standing for NULL).
- Machine integers are modelled as `Nat`; the one place where 32-bit overflow
  matters — the byte-size multiplication in `SYNTH_PlayBuffer` — carries an
  explicit `% 2 ^ 32`.
- Callback slots of the C function-pointer table are `Option`-typed; the
  result of invoking a callback is an `Int` (the C `int32_t`).  So that
  theorems can speak about which callbacks are invoked and with which
  arguments, each operation additionally returns the list of backend calls
  it performed, in order.
- Output parameters (`uint32_t *sample_rate`, `uint8_t *volume`) become an
  `Option Unit` input (is the pointer non-null?) and an `Option Nat` output
  (the value written through it, if any).
-/

/-- Status code `SYNTH_STATUS_OK` (0x00U) from `synth.h`. -/
def SYNTH_STATUS_OK : Int := 0

/-- Status code `SYNTH_STATUS_ERROR` (0x01U) from `synth.h`. -/
def SYNTH_STATUS_ERROR : Int := 1

/-- Status code `SYNTH_STATUS_BUSY` (0x02U) from `synth.h` (reserved, never produced). -/
def SYNTH_STATUS_BUSY : Int := 2

/-- Status code `SYNTH_STATUS_TIMEOUT` (0x03U) from `synth.h` (reserved, never produced). -/
def SYNTH_STATUS_TIMEOUT : Int := 3

/-- Default sample rate `SYNTH_DEFAULT_SAMPLE_RATE` (44100U) from `synth.h`. -/
def SYNTH_DEFAULT_SAMPLE_RATE : Nat := 44100

/-- Default channel count `SYNTH_DEFAULT_CHANNELS` (2U) from `synth.h`. -/
def SYNTH_DEFAULT_CHANNELS : Nat := 2

/-- Default volume `SYNTH_DEFAULT_VOLUME` (75U) from `synth.h`. -/
def SYNTH_DEFAULT_VOLUME : Nat := 75

/-- One invocation of a backend callback, with the arguments passed to it.
Records the observable interaction between the driver core and the
registered low-level interface. -/
inductive BackendCall where
  | initCall : BackendCall
  | deinitCall : BackendCall
  | transmitCall (pData : List Int) (size : Nat) : BackendCall
  | setSampleRateCall (sample_rate : Nat) : BackendCall
  | muteCall (enable : Nat) : BackendCall
deriving DecidableEq, Repr

/-- The `SYNTH_IO_t` function-pointer table from `synth.h`: optional low-level
callbacks.  A `none` slot is a NULL function pointer.  `Init` and `DeInit`
take no arguments, so a registered callback is modelled by the `Int` result
it returns when invoked; `Transmit` receives the data buffer and the byte
size; `SetSampleRate` and `Mute` receive their single argument.
`GetSampleRate` is present in the C struct but never invoked by the driver
core; it is modelled as the pair (value written through the out-parameter,
result). -/
structure SYNTH_IO_t where
  Init : Option Int
  DeInit : Option Int
  Transmit : Option (List Int → Nat → Int)
  SetSampleRate : Option (Nat → Int)
  GetSampleRate : Option (Nat × Int)
  Mute : Option (Nat → Int)

/-- The `SYNTH_Ctx_t` runtime context from `synth.h`: `uint32_t SampleRate`,
`uint8_t Channels`, `uint8_t Volume`, `uint8_t Mute`, `uint8_t Initialized`. -/
structure SYNTH_Ctx_t where
  SampleRate : Nat
  Channels : Nat
  Volume : Nat
  Mute : Nat
  Initialized : Nat
deriving DecidableEq, Repr

/-- The process-wide mutable state of `synth.c`: the registered backend table
(static `SYNTH_IO_t SynthIO`) and the runtime context
(static `SYNTH_Ctx_t SynthCtx`). -/
structure SynthState where
  SynthIo : SYNTH_IO_t
  SynthCtx : SYNTH_Ctx_t

/-- The zero value of `SYNTH_Ctx_t`, as produced by
`memset(&SynthCtx, 0, sizeof(SYNTH_Ctx_t))`. -/
def zeroCtx : SYNTH_Ctx_t :=
  { SampleRate := 0, Channels := 0, Volume := 0, Mute := 0, Initialized := 0 }

/-- The backend table with every slot NULL: the zero-initialized value of the
static `SynthIO` at program start. -/
def zeroIoTable : SYNTH_IO_t :=
  { Init := none, DeInit := none, Transmit := none,
    SetSampleRate := none, GetSampleRate := none, Mute := none }

/-- The program-start state: both statics zero-initialized. -/
def synthStartState : SynthState :=
  { SynthIo := zeroIoTable, SynthCtx := zeroCtx }

/-- `SYNTH_DefaultTransmit` from `synth.c`: the dummy transmit function,
ignoring both arguments and returning `SYNTH_STATUS_ERROR`.  (Declared in the
source but never installed into the table.) -/
def SYNTH_DefaultTransmit (pData : List Int) (size : Nat) : Int :=
  SYNTH_STATUS_ERROR

/-- `SYNTH_RegisterBusIO` from `synth.c` (name adjusted for the development):
if the passed table pointer is NULL, return `SYNTH_STATUS_ERROR`; otherwise
copy the whole table into the process-wide slot and return `SYNTH_STATUS_OK`.
`pObj` is unused.  Returns (status, new state). -/
def SYNTH_RegisterBusIo (pObj : Option Nat) (pIo : Option SYNTH_IO_t)
    (s : SynthState) : Int × SynthState :=
  match pIo with
  | none => (SYNTH_STATUS_ERROR, s)
  | some io => (SYNTH_STATUS_OK, { s with SynthIo := io })

/-- `SYNTH_Init` from `synth.c`: fail with `SYNTH_STATUS_ERROR` if the backend
`Init` slot is NULL; invoke it and fail with `SYNTH_STATUS_ERROR` if it
returns non-zero; otherwise populate the context (given sample rate and
channels, default volume 75, mute 0, initialized 1), invoke the backend
`SetSampleRate` if present (its result is discarded), and return
`SYNTH_STATUS_OK`.  Returns (status, new state, backend calls performed). -/
def SYNTH_Init (pObj : Option Nat) (sample_rate : Nat) (channels : Nat)
    (s : SynthState) : Int × SynthState × List BackendCall :=
  match s.SynthIo.Init with
  | none => (SYNTH_STATUS_ERROR, s, [])
  | some r =>
    if r ≠ 0 then
      (SYNTH_STATUS_ERROR, s, [BackendCall.initCall])
    else
      let ctx : SYNTH_Ctx_t :=
        { SampleRate := sample_rate, Channels := channels,
          Volume := SYNTH_DEFAULT_VOLUME, Mute := 0, Initialized := 1 }
      match s.SynthIo.SetSampleRate with
      | none =>
          (SYNTH_STATUS_OK, { s with SynthCtx := ctx }, [BackendCall.initCall])
      | some _ =>
          (SYNTH_STATUS_OK, { s with SynthCtx := ctx },
            [BackendCall.initCall, BackendCall.setSampleRateCall sample_rate])

/-- `SYNTH_DeInit` from `synth.c`: invoke the backend `DeInit` if present (its
result is discarded), zero the whole context, and return `SYNTH_STATUS_OK`
unconditionally.  Returns (status, new state, backend calls performed). -/
def SYNTH_DeInit (pObj : Option Nat) (s : SynthState) :
    Int × SynthState × List BackendCall :=
  let calls := match s.SynthIo.DeInit with
    | none => []
    | some _ => [BackendCall.deinitCall]
  (SYNTH_STATUS_OK, { s with SynthCtx := zeroCtx }, calls)

/-- `SYNTH_PlayBuffer` from `synth.c`: fail with `SYNTH_STATUS_ERROR` if the
context is not initialized or if the backend `Transmit` slot is NULL;
otherwise compute `size = length * sizeof(int16_t)` in `uint32_t` arithmetic
(hence the `% 2 ^ 32`) and return the transmit callback's result directly.
Returns (status, new state, backend calls performed). -/
def SYNTH_PlayBuffer (pObj : Option Nat) (buffer : List Int) (length : Nat)
    (s : SynthState) : Int × SynthState × List BackendCall :=
  if s.SynthCtx.Initialized = 0 then
    (SYNTH_STATUS_ERROR, s, [])
  else
    match s.SynthIo.Transmit with
    | none => (SYNTH_STATUS_ERROR, s, [])
    | some tr =>
      let size := (length * 2) % 2 ^ 32
      (tr buffer size, s, [BackendCall.transmitCall buffer size])

/-- `SYNTH_Stop` from `synth.c`: a no-op, returning `SYNTH_STATUS_OK`
unconditionally.  Returns (status, new state, backend calls performed). -/
def SYNTH_Stop (pObj : Option Nat) (s : SynthState) :
    Int × SynthState × List BackendCall :=
  (SYNTH_STATUS_OK, s, [])

/-- `SYNTH_SetSampleRate` from `synth.c`: store the rate into the context,
invoke the backend `SetSampleRate` if present (its result is discarded), and
return `SYNTH_STATUS_OK` unconditionally.  Does not check `Initialized`.
Returns (status, new state, backend calls performed). -/
def SYNTH_SetSampleRate (pObj : Option Nat) (sample_rate : Nat)
    (s : SynthState) : Int × SynthState × List BackendCall :=
  let s' := { s with SynthCtx := { s.SynthCtx with SampleRate := sample_rate } }
  match s.SynthIo.SetSampleRate with
  | none => (SYNTH_STATUS_OK, s', [])
  | some _ => (SYNTH_STATUS_OK, s', [BackendCall.setSampleRateCall sample_rate])

/-- `SYNTH_GetSampleRate` from `synth.c`: fail with `SYNTH_STATUS_ERROR` if
the output pointer is NULL; otherwise write the context's `SampleRate`
through it and return `SYNTH_STATUS_OK`.  The state is not modified and no
backend callback is invoked.  Returns (status, value written through the
out-parameter). -/
def SYNTH_GetSampleRate (pObj : Option Nat) (sample_rate : Option Unit)
    (s : SynthState) : Int × Option Nat :=
  match sample_rate with
  | none => (SYNTH_STATUS_ERROR, none)
  | some _ => (SYNTH_STATUS_OK, some s.SynthCtx.SampleRate)

/-- `SYNTH_SetVolume` from `synth.c`: clamp the volume to 100 (values above
100 are silently clamped down), store it into the context, and return
`SYNTH_STATUS_OK` unconditionally.  Does not check `Initialized` and invokes
no backend callback.  Returns (status, new state). -/
def SYNTH_SetVolume (pObj : Option Nat) (volume : Nat) (s : SynthState) :
    Int × SynthState :=
  let v := if volume > 100 then 100 else volume
  (SYNTH_STATUS_OK, { s with SynthCtx := { s.SynthCtx with Volume := v } })

/-- `SYNTH_GetVolume` from `synth.c`: fail with `SYNTH_STATUS_ERROR` if the
output pointer is NULL; otherwise write the context's `Volume` through it and
return `SYNTH_STATUS_OK`.  The state is not modified and no backend callback
is invoked.  Returns (status, value written through the out-parameter). -/
def SYNTH_GetVolume (pObj : Option Nat) (volume : Option Unit)
    (s : SynthState) : Int × Option Nat :=
  match volume with
  | none => (SYNTH_STATUS_ERROR, none)
  | some _ => (SYNTH_STATUS_OK, some s.SynthCtx.Volume)

/-- `SYNTH_Mute` from `synth.c`: store the enable flag into the context,
invoke the backend `Mute` if present (its result is discarded), and return
`SYNTH_STATUS_OK` unconditionally.  Does not check `Initialized`.
Returns (status, new state, backend calls performed). -/
def SYNTH_Mute (pObj : Option Nat) (enable : Nat) (s : SynthState) :
    Int × SynthState × List BackendCall :=
  let s' := { s with SynthCtx := { s.SynthCtx with Mute := enable } }
  match s.SynthIo.Mute with
  | none => (SYNTH_STATUS_OK, s', [])
  | some _ => (SYNTH_STATUS_OK, s', [BackendCall.muteCall enable])

/-- A state is reachable when it arises from the program-start state by any
sequence of public operations (with arbitrary arguments).  The getters do not
modify the state and so contribute no step. -/
inductive Reachable : SynthState → Prop where
  | start : Reachable synthStartState
  | registerStep (p : Option Nat) (pIo : Option SYNTH_IO_t) (s : SynthState) :
      Reachable s → Reachable (SYNTH_RegisterBusIo p pIo s).2
  | initStep (p : Option Nat) (sr ch : Nat) (s : SynthState) :
      Reachable s → Reachable (SYNTH_Init p sr ch s).2.1
  | deinitStep (p : Option Nat) (s : SynthState) :
      Reachable s → Reachable (SYNTH_DeInit p s).2.1
  | playStep (p : Option Nat) (buf : List Int) (n : Nat) (s : SynthState) :
      Reachable s → Reachable (SYNTH_PlayBuffer p buf n s).2.1
  | stopStep (p : Option Nat) (s : SynthState) :
      Reachable s → Reachable (SYNTH_Stop p s).2.1
  | setSampleRateStep (p : Option Nat) (r : Nat) (s : SynthState) :
      Reachable s → Reachable (SYNTH_SetSampleRate p r s).2.1
  | setVolumeStep (p : Option Nat) (v : Nat) (s : SynthState) :
      Reachable s → Reachable (SYNTH_SetVolume p v s).2
  | muteStep (p : Option Nat) (e : Nat) (s : SynthState) :
      Reachable s → Reachable (SYNTH_Mute p e s).2.1

/-- A concrete backend table for evaluating the operations: `Init` succeeds,
`Transmit` is present and returns its byte size as the result code, and
`SetSampleRate` and `Mute` are present. -/
def okIoTable : SYNTH_IO_t :=
  { Init := some 0, DeInit := some 0,
    Transmit := some (fun _ size => Int.ofNat size),
    SetSampleRate := some (fun _ => 7), GetSampleRate := none,
    Mute := some (fun _ => 0) }

/-- A concrete state whose context is initialized and whose backend table is
`okIoTable`: the state reached by registering `okIoTable` and running a
successful init at 44100 Hz stereo. -/
def cexReadyState : SynthState :=
  { SynthIo := okIoTable,
    SynthCtx := { SampleRate := 44100, Channels := 2, Volume := 75,
                  Mute := 0, Initialized := 1 } }

/-- A concrete backend table whose `Init` callback reports failure (returns 1). -/
def failIoTable : SYNTH_IO_t :=
  { zeroIoTable with Init := some 1 }

/-- A concrete state holding a sample rate of 123 with a backend whose `Init`
fails, for exercising the failed-init path. -/
def failInitState : SynthState :=
  { SynthIo := failIoTable,
    SynthCtx := { SampleRate := 123, Channels := 1, Volume := 42,
                  Mute := 1, Initialized := 0 } }

/-- A concrete state that is initialized but whose backend table has a NULL
`Transmit` slot. -/
def readyNoTransmitState : SynthState :=
  { SynthIo := zeroIoTable,
    SynthCtx := { SampleRate := 44100, Channels := 2, Volume := 75,
                  Mute := 0, Initialized := 1 } }

/-- In every reachable state the stored volume is at most 100: the start
state holds 0, `SYNTH_Init` stores 75, `SYNTH_DeInit` stores 0,
`SYNTH_SetVolume` clamps, and every other operation leaves `Volume`
unchanged. -/
theorem volume_le_100_of_reachable (s : SynthState) (h : Reachable s) :
    s.SynthCtx.Volume ≤ 100 := by
  induction h with
  | start => simp [synthStartState, zeroCtx]
  | registerStep p pIo s _ ih =>
      cases pIo <;> simp [SYNTH_RegisterBusIo, ih]
  | initStep p sr ch s _ ih =>
      rcases hI : s.SynthIo.Init with _ | r
      · simpa [SYNTH_Init, hI] using ih
      · by_cases hr : r = 0
        · rcases hS : s.SynthIo.SetSampleRate with _ | f <;>
            simp [SYNTH_Init, hI, hr, hS, SYNTH_DEFAULT_VOLUME]
        · simpa [SYNTH_Init, hI, hr] using ih
  | deinitStep p s _ ih => simp [SYNTH_DeInit, zeroCtx]
  | playStep p buf n s _ ih =>
      by_cases h0 : s.SynthCtx.Initialized = 0
      · simpa [SYNTH_PlayBuffer, h0] using ih
      · rcases hT : s.SynthIo.Transmit with _ | tr <;>
          simpa [SYNTH_PlayBuffer, h0, hT] using ih
  | stopStep p s _ ih => simpa [SYNTH_Stop] using ih
  | setSampleRateStep p r s _ ih =>
      rcases hS : s.SynthIo.SetSampleRate with _ | f <;>
        simpa [SYNTH_SetSampleRate, hS] using ih
  | setVolumeStep p v s _ ih =>
      by_cases hv : v > 100 <;> simp [SYNTH_SetVolume, hv] <;> omega
  | muteStep p e s _ ih =>
      rcases hM : s.SynthIo.Mute with _ | f <;>
        simpa [SYNTH_Mute, hM] using ih

/-- C1 counterexample: the claim says that with `Initialized = 0` every
operation other than registration and init fails and does not take effect.
At the start state (where `Initialized = 0`), `SYNTH_SetVolume` with input 50
returns `SYNTH_STATUS_OK` (not a failure) and does take effect: the stored
volume becomes 50. -/
theorem C1_counterexample :
    synthStartState.SynthCtx.Initialized = 0 ∧
    (SYNTH_SetVolume none 50 synthStartState).1 = SYNTH_STATUS_OK ∧
    SYNTH_STATUS_OK ≠ SYNTH_STATUS_ERROR ∧
    (SYNTH_SetVolume none 50 synthStartState).2.SynthCtx.Volume = 50 := by
  refine ⟨rfl, rfl, by decide, rfl⟩

/-- C1 amended: the `Initialized` flag gates only `SYNTH_PlayBuffer`.  None
of `SYNTH_SetSampleRate`, `SYNTH_GetSampleRate`, `SYNTH_SetVolume`,
`SYNTH_GetVolume`, `SYNTH_Mute`, `SYNTH_Stop`, `SYNTH_DeInit` checks the
flag: in every state — initialized or not — each returns `SYNTH_STATUS_OK`
(the getters given a non-null output location) and the setters take effect
on the context. -/
theorem C1_amended_ops_not_gated (p : Option Nat) (s : SynthState)
    (r v e : Nat) :
    (SYNTH_SetSampleRate p r s).1 = SYNTH_STATUS_OK ∧
    (SYNTH_SetSampleRate p r s).2.1.SynthCtx.SampleRate = r ∧
    (SYNTH_GetSampleRate p (some ()) s).1 = SYNTH_STATUS_OK ∧
    (SYNTH_GetSampleRate p (some ()) s).2 = some s.SynthCtx.SampleRate ∧
    (SYNTH_SetVolume p v s).1 = SYNTH_STATUS_OK ∧
    (SYNTH_SetVolume p v s).2.SynthCtx.Volume = min v 100 ∧
    (SYNTH_GetVolume p (some ()) s).1 = SYNTH_STATUS_OK ∧
    (SYNTH_Mute p e s).1 = SYNTH_STATUS_OK ∧
    (SYNTH_Mute p e s).2.1.SynthCtx.Mute = e ∧
    (SYNTH_Stop p s).1 = SYNTH_STATUS_OK ∧
    (SYNTH_DeInit p s).1 = SYNTH_STATUS_OK := by
  have hmin : (if v > 100 then 100 else v) = min v 100 := by
    split <;> omega
  rcases hS : s.SynthIo.SetSampleRate with _ | f <;>
    rcases hM : s.SynthIo.Mute with _ | g <;>
      simp [SYNTH_SetSampleRate, SYNTH_GetSampleRate, SYNTH_SetVolume,
        SYNTH_GetVolume, SYNTH_Mute, SYNTH_Stop, SYNTH_DeInit, hS, hM, hmin]

/-- C2 counterexample: the claim says that for every u32 length N the
transmit callback receives byte size exactly `N * 2`.  At
`N = 2 ^ 31` the u32 multiplication `length * sizeof(int16_t)` wraps to 0,
so the transmit call carries size 0, not `2 ^ 31 * 2 = 2 ^ 32`. -/
theorem C2_counterexample :
    (SYNTH_PlayBuffer none [] (2 ^ 31) cexReadyState).2.2 =
      [BackendCall.transmitCall [] 0] ∧
    (SYNTH_PlayBuffer none [] (2 ^ 31) cexReadyState).2.2 ≠
      [BackendCall.transmitCall [] (2 ^ 31 * 2)] := by
  constructor
  · simp [SYNTH_PlayBuffer, cexReadyState, okIoTable]
  · simp [SYNTH_PlayBuffer, cexReadyState, okIoTable]

/-- C2 amended: on the successful path (context initialized, transmit slot
registered), `SYNTH_PlayBuffer` with length `n` invokes the transmit
callback exactly once, with byte size `(n * 2) % 2 ^ 32` (u32 arithmetic),
and returns the callback's result code unchanged; for `n < 2 ^ 31` the size
equals `n * 2` exactly (e.g. length 256 gives size 512). -/
theorem C2_amended_playBuffer_size (p : Option Nat) (buffer : List Int)
    (n : Nat) (s : SynthState) (tr : List Int → Nat → Int)
    (hinit : s.SynthCtx.Initialized ≠ 0)
    (htr : s.SynthIo.Transmit = some tr) :
    (SYNTH_PlayBuffer p buffer n s).2.2 =
      [BackendCall.transmitCall buffer ((n * 2) % 2 ^ 32)] ∧
    (SYNTH_PlayBuffer p buffer n s).1 = tr buffer ((n * 2) % 2 ^ 32) ∧
    (n < 2 ^ 31 → (n * 2) % 2 ^ 32 = n * 2) := by
  refine ⟨?_, ?_, fun hn => Nat.mod_eq_of_lt (by omega)⟩ <;>
    simp [SYNTH_PlayBuffer, hinit, htr]

/-- C2 witness: at length 256 in the concrete ready state the transmit
callback is invoked once with size 512 and its result (here: the size
itself) is returned unchanged. -/
theorem C2_amended_playBuffer_size_witness :
    (SYNTH_PlayBuffer none [] 256 cexReadyState).2.2 =
      [BackendCall.transmitCall [] ((256 * 2) % 2 ^ 32)] ∧
    (SYNTH_PlayBuffer none [] 256 cexReadyState).1 =
      (fun (_ : List Int) (size : Nat) => Int.ofNat size) [] ((256 * 2) % 2 ^ 32) :=
  ⟨(C2_amended_playBuffer_size none [] 256 cexReadyState
      (fun (_ : List Int) (size : Nat) => Int.ofNat size) (by decide) rfl).1,
   (C2_amended_playBuffer_size none [] 256 cexReadyState
      (fun (_ : List Int) (size : Nat) => Int.ofNat size) (by decide) rfl).2.1⟩

/-- C3: if the backend `Init` callback is registered and returns a non-zero
result, `SYNTH_Init` returns `SYNTH_STATUS_ERROR` and leaves the whole state
(in particular every context field) unchanged, so a subsequent
`SYNTH_GetSampleRate` reads whatever the context held before the attempt. -/
theorem C3_init_failure_leaves_ctx (p q : Option Nat) (sr ch : Nat)
    (s : SynthState) (r : Int) (hI : s.SynthIo.Init = some r) (hr : r ≠ 0) :
    (SYNTH_Init p sr ch s).1 = SYNTH_STATUS_ERROR ∧
    (SYNTH_Init p sr ch s).2.1 = s ∧
    (SYNTH_GetSampleRate q (some ()) (SYNTH_Init p sr ch s).2.1).2 =
      some s.SynthCtx.SampleRate := by
  simp [SYNTH_Init, hI, hr, SYNTH_GetSampleRate]

/-- C3 witness: `init(48000, 2)` against the concrete failing backend leaves
status `SYNTH_STATUS_ERROR`, the state unchanged, and `getSampleRate` still
reads the prior value 123. -/
theorem C3_init_failure_witness :
    (SYNTH_Init none 48000 2 failInitState).1 = SYNTH_STATUS_ERROR ∧
    (SYNTH_Init none 48000 2 failInitState).2.1 = failInitState ∧
    (SYNTH_GetSampleRate none (some ())
      (SYNTH_Init none 48000 2 failInitState).2.1).2 =
      some failInitState.SynthCtx.SampleRate :=
  C3_init_failure_leaves_ctx none none 48000 2 failInitState 1 rfl (by decide)

/-- C4: if the backend `Init` callback is registered and returns 0,
`SYNTH_Init sr ch` returns `SYNTH_STATUS_OK` and leaves the context with
`SampleRate = sr`, `Channels = ch`, `Volume = SYNTH_DEFAULT_VOLUME` (75),
`Mute = 0` and `Initialized = 1`; if the backend `SetSampleRate` slot is
registered it is additionally invoked with the configured rate (and since
the success status holds for an arbitrary registered callback, its result
cannot fail the operation), and if it is NULL only the init call happens. -/
theorem C4_init_success (p : Option Nat) (sr ch : Nat) (s : SynthState)
    (hI : s.SynthIo.Init = some 0) :
    (SYNTH_Init p sr ch s).1 = SYNTH_STATUS_OK ∧
    (SYNTH_Init p sr ch s).2.1.SynthCtx =
      { SampleRate := sr, Channels := ch, Volume := SYNTH_DEFAULT_VOLUME,
        Mute := 0, Initialized := 1 } ∧
    (∀ f, s.SynthIo.SetSampleRate = some f →
      (SYNTH_Init p sr ch s).2.2 =
        [BackendCall.initCall, BackendCall.setSampleRateCall sr]) ∧
    (s.SynthIo.SetSampleRate = none →
      (SYNTH_Init p sr ch s).2.2 = [BackendCall.initCall]) := by
  rcases hS : s.SynthIo.SetSampleRate with _ | f <;>
    simp [SYNTH_Init, hI, hS]

/-- C4 witness: `init(48000, 2)` against the concrete succeeding backend
returns OK, populates the context with the defaults, and forwards 48000 to
the registered `SetSampleRate` callback. -/
theorem C4_init_success_witness :
    (SYNTH_Init none 48000 2 { SynthIo := okIoTable, SynthCtx := zeroCtx }).1 =
      SYNTH_STATUS_OK ∧
    (SYNTH_Init none 48000 2
        { SynthIo := okIoTable, SynthCtx := zeroCtx }).2.1.SynthCtx =
      { SampleRate := 48000, Channels := 2, Volume := SYNTH_DEFAULT_VOLUME,
        Mute := 0, Initialized := 1 } ∧
    (SYNTH_Init none 48000 2 { SynthIo := okIoTable, SynthCtx := zeroCtx }).2.2 =
      [BackendCall.initCall, BackendCall.setSampleRateCall 48000] :=
  ⟨(C4_init_success none 48000 2 _ rfl).1,
   (C4_init_success none 48000 2 _ rfl).2.1,
   (C4_init_success none 48000 2 _ rfl).2.2.1 (fun _ => 7) rfl⟩

/-- C5: for every input `v`, `SYNTH_SetVolume v` returns `SYNTH_STATUS_OK`
and a following `SYNTH_GetVolume` (with a non-null output location) yields
`min v 100` — so values in [0,100] round-trip unchanged and values above 100
read back as exactly 100; moreover in every reachable state the stored
volume never exceeds 100. -/
theorem C5_volume_clamp :
    (∀ (p q : Option Nat) (v : Nat) (s : SynthState),
      (SYNTH_SetVolume p v s).1 = SYNTH_STATUS_OK ∧
      (SYNTH_GetVolume q (some ()) (SYNTH_SetVolume p v s).2).2 =
        some (min v 100)) ∧
    (∀ s : SynthState, Reachable s → s.SynthCtx.Volume ≤ 100) := by
  constructor
  · intro p q v s
    have hmin : (if v > 100 then 100 else v) = min v 100 := by
      split <;> omega
    exact ⟨rfl, by simp [SYNTH_SetVolume, SYNTH_GetVolume, hmin]⟩
  · exact volume_le_100_of_reachable

/-- C5 witness: setting volume 150 at the start state returns OK and reads
back as 100, and the start state (reachable) satisfies the 0–100 bound. -/
theorem C5_volume_clamp_witness :
    (SYNTH_SetVolume none 150 synthStartState).1 = SYNTH_STATUS_OK ∧
    (SYNTH_GetVolume none (some ())
      (SYNTH_SetVolume none 150 synthStartState).2).2 = some (min 150 100) ∧
    synthStartState.SynthCtx.Volume ≤ 100 :=
  ⟨(C5_volume_clamp.1 none none 150 synthStartState).1,
   (C5_volume_clamp.1 none none 150 synthStartState).2,
   C5_volume_clamp.2 synthStartState Reachable.start⟩

/-- C6: `SYNTH_DeInit` always returns `SYNTH_STATUS_OK` and leaves the whole
context at its zero value (every field 0, so `Initialized = 0`), and it is
idempotent: a second call also returns OK and the state after the second
call equals the state after the first. -/
theorem C6_deinit_idempotent (p q : Option Nat) (s : SynthState) :
    (SYNTH_DeInit p s).1 = SYNTH_STATUS_OK ∧
    (SYNTH_DeInit p s).2.1.SynthCtx = zeroCtx ∧
    (SYNTH_DeInit q (SYNTH_DeInit p s).2.1).1 = SYNTH_STATUS_OK ∧
    (SYNTH_DeInit q (SYNTH_DeInit p s).2.1).2.1 = (SYNTH_DeInit p s).2.1 := by
  simp [SYNTH_DeInit]

/-- C7 counterexample: the claim quantifies over every playback operation,
and `SYNTH_Stop` is one (its sources include SYNTH_Stop; the driver table
groups Stop under audio playback).  Called before init has succeeded
(`Initialized = 0` at the start state), `SYNTH_Stop` returns
`SYNTH_STATUS_OK`, not a NotReady error. -/
theorem C7_counterexample :
    synthStartState.SynthCtx.Initialized = 0 ∧
    (SYNTH_Stop none synthStartState).1 = SYNTH_STATUS_OK ∧
    (SYNTH_Stop none synthStartState).1 ≠ SYNTH_STATUS_ERROR := by
  refine ⟨rfl, rfl, by decide⟩

/-- C7 amended: `SYNTH_PlayBuffer` called while uninitialized fails with the
generic error status (NotReady) without invoking any backend callback; when
initialized but the backend transmit slot is NULL it fails with the generic
error status (HardwareError); `SYNTH_Stop`, by contrast, returns
`SYNTH_STATUS_OK` in every state. -/
theorem C7_amended_playBuffer_gated (p : Option Nat) (buf : List Int)
    (n : Nat) (s : SynthState) :
    (s.SynthCtx.Initialized = 0 →
      (SYNTH_PlayBuffer p buf n s).1 = SYNTH_STATUS_ERROR ∧
      (SYNTH_PlayBuffer p buf n s).2.2 = []) ∧
    (s.SynthCtx.Initialized ≠ 0 → s.SynthIo.Transmit = none →
      (SYNTH_PlayBuffer p buf n s).1 = SYNTH_STATUS_ERROR) ∧
    (SYNTH_Stop p s).1 = SYNTH_STATUS_OK := by
  refine ⟨fun h0 => ?_, fun h0 hT => ?_, rfl⟩
  · simp [SYNTH_PlayBuffer, h0]
  · simp [SYNTH_PlayBuffer, h0, hT]

/-- C7 witness: playBuffer at the uninitialized start state fails, and
playBuffer at the initialized state with no transmit callback fails. -/
theorem C7_amended_playBuffer_gated_witness :
    (SYNTH_PlayBuffer none [] 4 synthStartState).1 = SYNTH_STATUS_ERROR ∧
    (SYNTH_PlayBuffer none [] 4 readyNoTransmitState).1 =
      SYNTH_STATUS_ERROR :=
  ⟨((C7_amended_playBuffer_gated none [] 4 synthStartState).1 rfl).1,
   (C7_amended_playBuffer_gated none [] 4 readyNoTransmitState).2.1
     (by decide) rfl⟩

/-- C8: registering a NULL table pointer fails with `SYNTH_STATUS_ERROR` and
changes nothing; registering any non-null table returns `SYNTH_STATUS_OK`
and copies the whole table into the single slot, leaving the context alone;
and registering B1 then B2 produces exactly the state of registering B2
alone — since every operation is a function of the state, every subsequent
operation consults only B2's callbacks and B1's are never invoked again. -/
theorem C8_register_replaces_wholesale (p q : Option Nat) (s : SynthState) :
    ((SYNTH_RegisterBusIo p none s).1 = SYNTH_STATUS_ERROR ∧
     (SYNTH_RegisterBusIo p none s).2 = s) ∧
    (∀ io : SYNTH_IO_t,
      (SYNTH_RegisterBusIo p (some io) s).1 = SYNTH_STATUS_OK ∧
      (SYNTH_RegisterBusIo p (some io) s).2.SynthIo = io ∧
      (SYNTH_RegisterBusIo p (some io) s).2.SynthCtx = s.SynthCtx) ∧
    (∀ b1 b2 : SYNTH_IO_t,
      (SYNTH_RegisterBusIo q (some b2)
          (SYNTH_RegisterBusIo p (some b1) s).2).2 =
        (SYNTH_RegisterBusIo q (some b2) s).2) := by
  simp [SYNTH_RegisterBusIo]

/-- C9: `SYNTH_Stop` always returns `SYNTH_STATUS_OK`, in every state,
changes neither the context nor the registered backend slot, and invokes no
backend callback: a pure no-op apart from its OK return value. -/
theorem C9_stop_noop (p : Option Nat) (s : SynthState) :
    SYNTH_Stop p s = (SYNTH_STATUS_OK, s, []) := rfl

/-- C10: every public operation ignores its `pObj` argument entirely — for
any two values of `pObj` (including `none`, the NULL pointer) with identical
remaining arguments and starting state, the operation produces the same
status, the same state and the same backend calls; in this embedding `pObj`
is opaque and never inspected, the rendering of "never dereferenced". -/
theorem C10_pObj_ignored (p1 p2 : Option Nat) :
    (∀ pIo s, SYNTH_RegisterBusIo p1 pIo s = SYNTH_RegisterBusIo p2 pIo s) ∧
    (∀ sr ch s, SYNTH_Init p1 sr ch s = SYNTH_Init p2 sr ch s) ∧
    (∀ s, SYNTH_DeInit p1 s = SYNTH_DeInit p2 s) ∧
    (∀ buf n s, SYNTH_PlayBuffer p1 buf n s = SYNTH_PlayBuffer p2 buf n s) ∧
    (∀ s, SYNTH_Stop p1 s = SYNTH_Stop p2 s) ∧
    (∀ r s, SYNTH_SetSampleRate p1 r s = SYNTH_SetSampleRate p2 r s) ∧
    (∀ o s, SYNTH_GetSampleRate p1 o s = SYNTH_GetSampleRate p2 o s) ∧
    (∀ v s, SYNTH_SetVolume p1 v s = SYNTH_SetVolume p2 v s) ∧
    (∀ o s, SYNTH_GetVolume p1 o s = SYNTH_GetVolume p2 o s) ∧
    (∀ e s, SYNTH_Mute p1 e s = SYNTH_Mute p2 e s) :=
  ⟨fun _ _ => rfl, fun _ _ _ => rfl, fun _ => rfl, fun _ _ _ => rfl,
   fun _ => rfl, fun _ _ => rfl, fun _ _ => rfl, fun _ _ => rfl,
   fun _ _ => rfl, fun _ _ => rfl⟩
